import Mathlib

/-!
Verification development for the Oracle Fusion invoice-creation tool
(`combined.py`): a Streamlit script that OCRs a PDF, asks an LLM to
structure the text into invoice fields, binds those fields into an
editable form, validates the form, and POSTs a JSON payload to an ERP
REST endpoint.

The embedding below translates the script's pure computations into Lean:
strings the code scans character-by-character are `List Char`; opaque
human-readable messages and bodies are `String`; monetary amounts are
exact rationals `ℚ` (the Python code uses IEEE floats; every numeric
comparison the claims exercise is far from the 1e-6 tolerance boundary
relative to float rounding error, so the rational model agrees with the
float computation on all inputs considered). External services
(Mistral chat, `json.loads`, the HTTP stack) are modelled as explicit
function arguments or result values, so theorems quantify over every
possible behaviour of the external side. A Python expression that can
raise an uncaught exception is modelled as an `Option`/`Except` returning
`none`/`.error` — in Streamlit an uncaught exception aborts the script
run and displays the exception to the user.
-/

namespace Ocr

/-! ## Greedy JSON span extraction (combined.py line 142)

The script runs `re.search(r'\x7b.*\x7d', extracted_json, re.DOTALL)`.
With DOTALL, `.*` matches newlines, so a match exists exactly when some
opening brace is followed (strictly later) by some closing brace; the
leftmost-longest match then runs from the first opening brace that has a
closing brace after it to the LAST closing brace of the whole reply.
Since the last closing brace lies after the first opening brace whenever
any match exists, the matched span is precisely: from the first opening
brace of the reply to the last closing brace of the reply, provided the
former precedes the latter. `jsonSpan` implements exactly that. -/

/-- Index of the first opening brace in a character list, if any. -/
def firstBrace : List Char → Option Nat
  | [] => none
  | c :: cs => if c = '{' then some 0 else (firstBrace cs).map (· + 1)

/-- Index of the last closing brace in a character list, if any. -/
def lastBrace : List Char → Option Nat
  | [] => none
  | c :: cs =>
    match lastBrace cs with
    | some j => some (j + 1)
    | none => if c = '}' then some 0 else none

/-- The span selected by the script's DOTALL regex search on the chat
reply: the substring from the first opening brace to the last closing
brace, or `none` when no opening brace strictly precedes a closing
brace (then `re.search` returns no match). -/
def jsonSpan (s : List Char) : Option (List Char) :=
  match firstBrace s, lastBrace s with
  | some f, some l => if f < l then some ((s.drop f).take (l - f + 1)) else none
  | _, _ => none

/-! ## JSON scalar values and Python coercions -/

/-- Scalar JSON values as they arrive in the extracted dictionary.
Candidate fields the form consumes are scalars; `line_items` is modelled
structurally as a list of records below. -/
inductive JVal where
  | jnull
  | jbool (b : Bool)
  | jnum (q : ℚ)
  | jstr (s : List Char)
  deriving DecidableEq, Repr

/-- Python truthiness of a scalar JSON value (`if extracted_date:`). -/
def truthy : JVal → Bool
  | .jnull => false
  | .jbool b => b
  | .jnum q => q ≠ 0
  | .jstr s => s ≠ []

/-- Numeric value of a decimal digit character, if it is one. -/
def digitVal : Char → Option Nat
  | c => if '0' ≤ c ∧ c ≤ '9' then some (c.toNat - '0'.toNat) else none

/-- Reads a nonempty all-digit character list as a natural number. -/
def parseDigitsAux (acc : Nat) : List Char → Option Nat
  | [] => some acc
  | c :: cs =>
    match digitVal c with
    | some d => parseDigitsAux (10 * acc + d) cs
    | none => none

/-- Reads a nonempty all-digit character list as a natural number;
fails on the empty list or on any non-digit. -/
def parseDigits (s : List Char) : Option Nat :=
  match s with
  | [] => none
  | _ => parseDigitsAux 0 s

/-- Model of Python `float(str)` restricted to plain decimal literals:
an optional leading minus sign, a nonempty digit run, and an optional
fractional part (a dot followed by a nonempty digit run). Any other
string fails (as `float` raises `ValueError` on e.g. `"abc"`).
Exotic accepted spellings (`"inf"`, exponents, surrounding whitespace)
are not exercised by any claim and are conservatively folded into the
failure case. -/
def parseDecimal (s : List Char) : Option ℚ :=
  let (neg, t) :=
    match s with
    | '-' :: r => (true, r)
    | _ => (false, s)
  let intPart := t.takeWhile (· ≠ '.')
  let rest := t.dropWhile (· ≠ '.')
  let mag : Option ℚ :=
    match rest with
    | [] => (parseDigits intPart).map (fun n => (n : ℚ))
    | '.' :: frac =>
      match parseDigits intPart, parseDigits frac with
      | some n, some f => some ((n : ℚ) + (f : ℚ) / ((10 : ℚ) ^ frac.length))
      | _, _ => none
    | _ => none
  mag.map (fun q => if neg then -q else q)

/-- Model of Python `float(v)` on a scalar JSON value: numbers pass
through, booleans become 0/1, strings go through `parseDecimal`,
`None` raises (`none`). -/
def pyFloat : JVal → Option ℚ
  | .jnum q => some q
  | .jbool b => some (if b then 1 else 0)
  | .jstr s => parseDecimal s
  | .jnull => none

/-! ## Dates -/

/-- A calendar date. -/
structure Date where
  year : Nat
  month : Nat
  day : Nat
  deriving DecidableEq, Repr

/-- Number of days in a month, accounting for leap years. -/
def daysInMonth (y m : Nat) : Nat :=
  if m = 2 then
    if y % 4 = 0 ∧ (y % 100 ≠ 0 ∨ y % 400 = 0) then 29 else 28
  else if m = 4 ∨ m = 6 ∨ m = 9 ∨ m = 11 then 30
  else 31

/-- Model of `datetime.strptime(s, "%Y-%m-%d")`: three dash-separated
digit runs — `%Y` matches exactly four digits, `%m` and `%d` one or
two — with the month in 1..12, the day valid for that month, and the
year at least `datetime.MINYEAR = 1`; any other string fails (raises
`ValueError` in Python). -/
def parseYMD (s : List Char) : Option Date :=
  let parts := s.splitOn '-'
  match parts with
  | [ys, ms, ds] =>
    match parseDigits ys, parseDigits ms, parseDigits ds with
    | some y, some m, some d =>
      if ys.length = 4 ∧ ms.length ≤ 2 ∧ ds.length ≤ 2 ∧
          1 ≤ m ∧ m ≤ 12 ∧ 1 ≤ d ∧ d ≤ daysInMonth y m ∧ 1 ≤ y then
        some ⟨y, m, d⟩
      else none
    | _, _, _ => none
  | _ => none

/-- Left-pads a digit string to the given width with zeros. -/
def padZeros (w : Nat) (s : List Char) : List Char :=
  List.replicate (w - s.length) '0' ++ s

/-- Model of `date.strftime("%Y-%m-%d")`: zero-padded
four-digit year, two-digit month, two-digit day. -/
def strftimeYMD (d : Date) : String :=
  String.mk (padZeros 4 (Nat.toDigits 10 d.year) ++ '-' ::
    padZeros 2 (Nat.toDigits 10 d.month) ++ '-' ::
    padZeros 2 (Nat.toDigits 10 d.day))

/-! ## Candidate record and session state -/

/-- One entry of the extracted `line_items` array: a JSON dictionary
whose `description` and `amount` keys may each be absent. -/
structure LineItem where
  description : Option JVal
  amount : Option JVal
  deriving DecidableEq, Repr

/-- The dictionary produced by `json.loads` on the extracted span
(`CandidateInvoice` in the spec). Every key may be absent; the code
reads each with `.get` and a default. Values are untrusted scalars. -/
structure Candidate where
  invoice_number : Option JVal := none
  invoice_date : Option JVal := none
  invoice_amount : Option JVal := none
  supplier_name : Option JVal := none
  supplier_address : Option JVal := none
  currency : Option JVal := none
  description : Option JVal := none
  line_items : Option (List LineItem) := none
  deriving DecidableEq, Repr

/-- The Streamlit session state keys the script initialises at the top. -/
structure Session where
  ocr_result : Option String
  extracted_data : Option Candidate
  pdf_processed : Bool
  deriving DecidableEq, Repr

/-- Outcome reported by the Auto-Extract handler: the success banner,
the `Could not parse extracted data` error, or the caught-exception
error carrying the exception's message (transport failure or
`json.loads` failure). -/
inductive ExtractEvent where
  | success
  | errorNoParse
  | errorException (msg : String)
  deriving DecidableEq, Repr

/-- The Auto-Extract Invoice Data button handler (combined.py lines
102-151). `replyResult` models the chat-completion call: `.ok reply`
is the reply text, `.error` a raised transport/service exception.
`loads` models `json.loads` on the selected span: `.ok` the parsed
dictionary, `.error` a raised `JSONDecodeError`. The whole body runs
inside `try/except`, so every raised exception yields the exception
error event and leaves the session untouched; `extracted_data` is
assigned only after a successful parse. -/
def autoExtract (replyResult : Except String (List Char))
    (loads : List Char → Except String Candidate) (st : Session) :
    Session × ExtractEvent :=
  match replyResult with
  | .error e => (st, .errorException e)
  | .ok reply =>
    match jsonSpan reply with
    | none => (st, .errorNoParse)
    | some span =>
      match loads span with
      | .error e => (st, .errorException e)
      | .ok c => ({ st with extracted_data := some c }, .success)

/-! ## Form-field initialisation (combined.py lines 183-247)

Each Streamlit widget's `value=` argument is the default shown on the
form. The expressions computing these defaults can raise uncaught
exceptions (`float(...)` on a malformed string, dictionary indexing on
a missing key); an `Option` result of `none` models such an uncaught
exception, which Streamlit surfaces as an on-screen error. -/

/-- Default of the Invoice Amount widget, from
`float(st.session_state["extracted_data"].get("invoice_amount", 0))`:
an absent key defaults to `0` before coercion; the `float` call itself
is NOT wrapped in any `try/except`, so a non-coercible value raises. -/
def initInvoiceAmount (c : Candidate) : Option ℚ :=
  pyFloat (c.invoice_amount.getD (.jnum 0))

/-- Default of the Invoice Date widget (combined.py lines 191-201):
read `invoice_date` with default `""`; when truthy, `strptime` it as
`%Y-%m-%d`; the whole statement sits in `try/except` with the fallback
`datetime.now().date()`, so absence, emptiness, a malformed string or a
non-string value all silently yield today's date. -/
def initInvoiceDate (c : Candidate) (today : Date) : Date :=
  let d := c.invoice_date.getD (.jstr [])
  if truthy d then
    match d with
    | .jstr s => (parseYMD s).getD today
    | _ => today
  else today

/-- The characters of the synthetic line description `"Service"`. -/
def serviceChars : List Char := 'S' :: 'e' :: 'r' :: 'v' :: 'i' :: 'c' :: 'e' :: []

/-- The working `extracted_lines` list (combined.py lines 224-226):
the candidate's `line_items` (absent ↦ `[]`); when that list is empty
(falsy), a single synthetic line with description `"Service"` and the
current header invoice amount. -/
def seededLines (c : Candidate) (invoice_amount : ℚ) : List LineItem :=
  let ls := c.line_items.getD []
  if ls = [] then [⟨some (.jstr serviceChars), some (.jnum invoice_amount)⟩] else ls

/-- Model of a `st.number_input` default: the widget renders with the
given default when it lies within `[minv, maxv]`; an out-of-range
default raises `StreamlitAPIException` (per Streamlit's documented
contract), modelled as `none`. -/
def numberInputDefault (minv maxv v : Nat) : Option Nat :=
  if minv ≤ v ∧ v ≤ maxv then some v else none

/-- Default of the Number of Lines widget (combined.py lines 228-233):
`value=len(extracted_lines)` with `min_value=1, max_value=10`. -/
def defaultNumLines (c : Candidate) (invoice_amount : ℚ) : Option Nat :=
  numberInputDefault 1 10 (seededLines c invoice_amount).length

/-- Default of the per-line Amount widget (combined.py line 243):
`float(extracted_lines[i]["amount"]) if i < len(extracted_lines) else
0.0`. Dictionary indexing raises `KeyError` on a missing `amount` key
and the `float` call raises on a non-coercible value; neither is
caught. -/
def initLineAmount (lines : List LineItem) (i : Nat) : Option ℚ :=
  if h : i < lines.length then
    match (lines.get ⟨i, h⟩).amount with
    | some v => pyFloat v
    | none => none
  else some 0

/-! ## Invoice submission (combined.py lines 262-347) -/

/-- The sidebar authentication selection with its credential fields. -/
inductive AuthInput where
  | basic (username password : String)
  | oauth (access_token : String)
  deriving DecidableEq, Repr

/-- One edited invoice line as collected into `lines_data`. -/
structure LineData where
  amount : ℚ
  dist_comb : String
  deriving DecidableEq, Repr

/-- Everything the Create Invoice handler reads: the edited form
fields, the sidebar configuration, and the current widget values. -/
structure SubmitCtx where
  business_unit : String
  supplier_name : String
  supplier_site : String
  invoice_number : String
  fusion_url : String
  invoice_currency : String
  auth : AuthInput
  invoice_amount : ℚ
  invoice_date : Date
  invoice_group : String
  description : String
  lines : List LineData
  deriving DecidableEq, Repr

/-- The `all(required_fields)` test (combined.py lines 267-277):
truthiness of every base required string plus the credential fields of
the selected auth method. -/
def requiredOk (c : SubmitCtx) : Bool :=
  c.business_unit != "" && c.supplier_name != "" && c.supplier_site != "" &&
    c.invoice_number != "" && c.fusion_url != "" && c.invoice_currency != "" &&
    match c.auth with
    | .basic u p => u != "" && p != ""
    | .oauth t => t != ""

/-- Sum of the edited line amounts, `sum(line["amount"] for line in
lines_data)`. -/
def lineSum (c : SubmitCtx) : ℚ :=
  (c.lines.map LineData.amount).sum

/-- The tolerance `1e-6` of the line-sum check, as an exact rational. -/
def sumTol : ℚ := 1 / 1000000

/-- Python's built-in `abs` on a number. -/
def pyAbs (q : ℚ) : ℚ := if q < 0 then -q else q

/-- One line of the REST payload. -/
structure LinePayload where
  LineNumber : Nat
  LineAmount : ℚ
  AccountingDate : String
  DistributionCombination : String
  deriving DecidableEq, Repr

/-- The JSON document POSTed to the ERP endpoint. -/
structure InvoicePayload where
  InvoiceNumber : String
  InvoiceCurrency : String
  InvoiceAmount : ℚ
  InvoiceDate : String
  BusinessUnit : String
  Supplier : String
  SupplierSite : String
  InvoiceGroup : String
  Description : String
  invoiceLines : List LinePayload
  deriving DecidableEq, Repr

/-- Payload construction (combined.py lines 294-316): lines in
`lines_data` order via `enumerate`, each carrying `LineNumber = idx+1`
and the header invoice date as its accounting date. -/
def buildPayload (c : SubmitCtx) : InvoicePayload where
  InvoiceNumber := c.invoice_number
  InvoiceCurrency := c.invoice_currency
  InvoiceAmount := c.invoice_amount
  InvoiceDate := strftimeYMD c.invoice_date
  BusinessUnit := c.business_unit
  Supplier := c.supplier_name
  SupplierSite := c.supplier_site
  InvoiceGroup := c.invoice_group
  Description := c.description
  invoiceLines := c.lines.mapIdx fun idx l =>
    ⟨idx + 1, l.amount, strftimeYMD c.invoice_date, l.dist_comb⟩

/-- The required-fields validation error message. -/
def msgRequired : String := "❌ Please fill in all required fields marked with *"

/-- The non-positive invoice amount validation error message. -/
def msgAmount : String := "❌ Invoice amount must be greater than 0"

/-- The line-sum mismatch validation error message. -/
def msgSum : String := "❌ Sum of line amounts must equal invoice amount"

/-- The empty distribution-combination validation error message. -/
def msgDist : String := "❌ All lines must have distribution combinations"

/-- The validation chain of the Create Invoice handler (combined.py
lines 266-305): the `if/elif/elif/elif/else` ladder evaluated in source
order; the first failing test yields its error and nothing else runs;
only the final `else` constructs the payload. -/
def createInvoice (c : SubmitCtx) : Except String InvoicePayload :=
  if ¬ requiredOk c then .error msgRequired
  else if c.invoice_amount ≤ 0 then .error msgAmount
  else if ¬ pyAbs (lineSum c - c.invoice_amount) ≤ sumTol then .error msgSum
  else if ¬ c.lines.all (fun l => l.dist_comb ≠ "") then .error msgDist
  else .ok (buildPayload c)

/-! ## ERP response handling (combined.py lines 329-347) -/

/-- Decidable equality of `Except` results, used to evaluate the
validation chain on concrete forms. -/
instance instDecEqExcept {ε α : Type} [DecidableEq ε] [DecidableEq α] :
    DecidableEq (Except ε α) := fun x y =>
  match x, y with
  | .ok a, .ok b =>
    if h : a = b then .isTrue (by rw [h]) else .isFalse (by simp [h])
  | .error a, .error b =>
    if h : a = b then .isTrue (by rw [h]) else .isFalse (by simp [h])
  | .ok _, .error _ => .isFalse (by simp)
  | .error _, .ok _ => .isFalse (by simp)


/-- Outcome of the `requests.post` call: a response with its status
code, raw `response.text`, and the result of `response.json()`
(whose failure on a non-JSON body raises
`requests.exceptions.JSONDecodeError`, carried here as `.error` with
the exception's message); or a raised transport-level
`requests.exceptions.RequestException` with its message. -/
inductive HttpResult where
  | response (status : Nat) (text : String) (jsonBody : Except String String)
  | netFail (msg : String)
  deriving DecidableEq, Repr

/-- A user-visible message emitted by the submission handler, in
on-screen order. -/
inductive UiEvent where
  | successCreated
  | jsonOut (body : String)
  | errorText (msg : String)
  | errorStatus (code : Nat)
  | errorResponseBody (text : String)
  | networkError (msg : String)
  deriving DecidableEq, Repr

/-- The response mapping (combined.py lines 337-347): status 200/201 →
the success banner, then `st.json(response.json())`; if that parse
raises, the exception is `requests.exceptions.JSONDecodeError`, which
in requests ≥ 2.27 (required by Streamlit) subclasses
`RequestException`, so the handler at line 344 reports it as
`Network error` (after the banner already rendered) — the generic
`except Exception` at line 346 is unreachable on the modelled inputs.
Any other status → two errors carrying the status code and the raw
body. A transport-level `RequestException` → the same network-error
message shape. -/
def reportResponse (r : HttpResult) : List UiEvent :=
  match r with
  | .netFail m => [.networkError m]
  | .response status text jsonBody =>
    if status = 200 ∨ status = 201 then
      match jsonBody with
      | .ok v => [.successCreated, .jsonOut v]
      | .error e => [.successCreated, .networkError e]
    else [.errorStatus status, .errorResponseBody text]

/-- The whole Create Invoice click (combined.py lines 265-347): run the
validation chain; on failure emit the single validation error and issue
no request; on success POST the built payload (`http` models the
transport and server) and report the response. The second component
records the issued request's payload, `none` when no request was
made. -/
def submitClick (http : InvoicePayload → HttpResult) (c : SubmitCtx) :
    List UiEvent × Option InvoicePayload :=
  match createInvoice c with
  | .error m => ([.errorText m], none)
  | .ok p => (reportResponse (http p), some p)

/-! ## Concrete instances used to evaluate the definitions -/

/-- A fully filled submission context: two lines of 30 and 70.0000001
(the latter written as an exact rational) against an invoice amount of
100. -/
def ctx100 : SubmitCtx where
  business_unit := "BU1"
  supplier_name := "Acme"
  supplier_site := "HQ"
  invoice_number := "INV-1"
  fusion_url := "https://erp.example.com"
  invoice_currency := "USD"
  auth := .oauth "token"
  invoice_amount := 100
  invoice_date := ⟨2024, 2, 9⟩
  invoice_group := ""
  description := ""
  lines := [⟨30, "A"⟩, ⟨700000001 / 10000000, "B"⟩]

/-- The same form with the invoice amount edited to 99. -/
def ctx99 : SubmitCtx := { ctx100 with invoice_amount := 99 }

/-- A valid three-line form: amounts 10, 20, 70 summing to 100. -/
def ctx3 : SubmitCtx :=
  { ctx100 with lines := [⟨10, "A"⟩, ⟨20, "B"⟩, ⟨70, "C"⟩] }

/-- The payload the three-line form builds. -/
def pay3 : InvoicePayload := buildPayload ctx3

/-- The filled form with the supplier name cleared. -/
def ctxMissing : SubmitCtx := { ctx100 with supplier_name := "" }

/-- A transport model whose every request fails at the network level. -/
def httpDown : InvoicePayload → HttpResult := fun _ => .netFail "connection refused"

/-- A candidate dictionary with every key absent. -/
def candEmpty : Candidate := {}

/-- A candidate whose `invoice_amount` is the non-numeric string
`"abc"`. -/
def cAbc : Candidate := { invoice_amount := some (.jstr ('a' :: 'b' :: 'c' :: [])) }

/-- A candidate carrying eleven line items. -/
def c11 : Candidate :=
  { line_items := some (List.replicate 11 ⟨none, some (.jnum 1)⟩) }

/-- A candidate whose `invoice_date` is `"13/02/2024"`, which
`%Y-%m-%d` parsing rejects. -/
def cBadDate : Candidate := { invoice_date := some (.jstr "13/02/2024".toList) }

/-- A candidate whose `invoice_date` is the well-formed `"2024-02-13"`. -/
def cGoodDate : Candidate := { invoice_date := some (.jstr "2024-02-13".toList) }

/-- A session with OCR text present and a prior extracted candidate. -/
def stPrior : Session :=
  { ocr_result := some "page text", extracted_data := some candEmpty,
    pdf_processed := true }

/-- A `json.loads` model that parses everything to the empty
dictionary. -/
def loadsK : List Char → Except String Candidate := fun _ => .ok candEmpty

/-- A chat reply containing no brace at all. -/
def replyNoJson : List Char := "no json here".toList

/-- The characters around and inside the braced object of the span
example reply. -/
def preW : List Char := 'x' :: ' ' :: []

/-- Interior of the example braced object. -/
def midW : List Char := 'a' :: []

/-- Trailing text of the example reply. -/
def postW : List Char := ' ' :: 'y' :: []

/-- The response body `\x7b"error":"x"\x7d` of the claim's HTTP 400
example, built from characters. -/
def bodyErrX : String :=
  String.mk ('{' :: '"' :: 'e' :: 'r' :: 'r' :: 'o' :: 'r' :: '"' :: ':' ::
    '"' :: 'x' :: '"' :: '}' :: [])

/-! ## Helper lemmas about the brace scan -/

/-- Prepending brace-free text shifts the first-brace index. -/
theorem firstBrace_append_not_mem (xs ys : List Char) (h : '{' ∉ xs) :
    firstBrace (xs ++ ys) = (firstBrace ys).map (xs.length + ·) := by
  induction xs with
  | nil =>
    cases hy : firstBrace ys <;> simp [hy]
  | cons x xs ih =>
    have hx : x ≠ '{' := fun hc => h (hc ▸ List.mem_cons_self x xs)
    have hxs : '{' ∉ xs := fun hc => h (List.mem_cons_of_mem x hc)
    rw [List.cons_append]
    rw [show firstBrace (x :: (xs ++ ys)) =
        (firstBrace (xs ++ ys)).map (· + 1) by simp [firstBrace, hx]]
    rw [ih hxs]
    cases hy : firstBrace ys
    · simp [hy]
    · simp [hy]
      omega

/-- A list without closing braces has no last-brace index. -/
theorem lastBrace_eq_none (xs : List Char) (h : '}' ∉ xs) :
    lastBrace xs = none := by
  induction xs with
  | nil => rfl
  | cons x xs ih =>
    have hx : x ≠ '}' := fun hc => h (hc ▸ List.mem_cons_self x xs)
    have hxs : '}' ∉ xs := fun hc => h (List.mem_cons_of_mem x hc)
    simp [lastBrace, ih hxs, hx]

/-- When the suffix holds a closing brace, the last-brace index of an
append lands in the suffix. -/
theorem lastBrace_append_some (xs ys : List Char) (j : Nat)
    (h : lastBrace ys = some j) :
    lastBrace (xs ++ ys) = some (xs.length + j) := by
  induction xs with
  | nil => simpa using h
  | cons x xs ih =>
    rw [List.cons_append]
    rw [show lastBrace (x :: (xs ++ ys)) =
      match lastBrace (xs ++ ys) with
      | some k => some (k + 1)
      | none => if x = '}' then some 0 else none from rfl]
    rw [ih]
    simp
    omega

/-- When the suffix has no closing brace, the last-brace index of an
append is that of the prefix. -/
theorem lastBrace_append_none (xs ys : List Char)
    (h : lastBrace ys = none) :
    lastBrace (xs ++ ys) = lastBrace xs := by
  induction xs with
  | nil => simpa using h
  | cons x xs ih =>
    rw [List.cons_append]
    rw [show lastBrace (x :: (xs ++ ys)) =
      match lastBrace (xs ++ ys) with
      | some k => some (k + 1)
      | none => if x = '}' then some 0 else none from rfl]
    rw [show lastBrace (x :: xs) =
      match lastBrace xs with
      | some k => some (k + 1)
      | none => if x = '}' then some 0 else none from rfl]
    rw [ih]

/-- Definitional unfolding of `firstBrace` on a cons cell. -/
theorem firstBrace_cons (c : Char) (cs : List Char) :
    firstBrace (c :: cs) =
      if c = '{' then some 0 else (firstBrace cs).map (· + 1) := rfl

/-- Definitional unfolding of `lastBrace` on a cons cell. -/
theorem lastBrace_cons (c : Char) (cs : List Char) :
    lastBrace (c :: cs) =
      match lastBrace cs with
      | some j => some (j + 1)
      | none => if c = '}' then some 0 else none := rfl

/-- The span the regex search yields once the first opening brace and
last closing brace are located, with the former strictly earlier. -/
theorem jsonSpan_some (s : List Char) (f l : Nat)
    (hf : firstBrace s = some f) (hl : lastBrace s = some l) (hlt : f < l) :
    jsonSpan s = some ((s.drop f).take (l - f + 1)) := by
  simp [jsonSpan, hf, hl, hlt]

/-- The extraction handler's success path: a span found and parsed. -/
theorem autoExtract_ok_of_parse (reply span : List Char)
    (loads : List Char → Except String Candidate) (st : Session)
    (cand : Candidate) (h1 : jsonSpan reply = some span)
    (h2 : loads span = .ok cand) :
    autoExtract (.ok reply) loads st =
      ({ st with extracted_data := some cand }, .success) := by
  simp [autoExtract, h1, h2]

/-- C4: the Field Extractor selects the substring from the first
opening brace of the chat reply to the last closing brace (greedy
span, not a balanced-brace parse) and hands exactly it to `json.loads`;
hence when the reply consists of one braced object surrounded by text
with no opening brace before it and no closing brace after it — in
particular when the reply contains exactly one balanced JSON object —
the selected span is exactly that object, and whatever dictionary
`json.loads` yields for it is stored unchanged as the extracted
candidate. -/
theorem greedy_span_selects_first_to_last_brace (pre mid post : List Char)
    (hpre : '{' ∉ pre) (hpost : '}' ∉ post) :
    jsonSpan (pre ++ ('{' :: (mid ++ ['}'])) ++ post) = some ('{' :: (mid ++ ['}'])) ∧
    ∀ (loads : List Char → Except String Candidate) (st : Session) (cand : Candidate),
      loads ('{' :: (mid ++ ['}'])) = .ok cand →
      autoExtract (.ok (pre ++ ('{' :: (mid ++ ['}'])) ++ post)) loads st =
        ({ st with extracted_data := some cand }, .success) := by
  have hobj : lastBrace (('{' :: (mid ++ ['}'])) ++ post) = some (mid.length + 1) := by
    rw [lastBrace_append_none _ _ (lastBrace_eq_none post hpost), lastBrace_cons,
      lastBrace_append_some mid ['}'] 0 rfl]
  have hf : firstBrace (pre ++ (('{' :: (mid ++ ['}'])) ++ post)) =
      some pre.length := by
    rw [firstBrace_append_not_mem pre _ hpre, List.cons_append, firstBrace_cons]
    simp
  have hl : lastBrace (pre ++ (('{' :: (mid ++ ['}'])) ++ post)) =
      some (pre.length + (mid.length + 1)) :=
    lastBrace_append_some _ _ _ hobj
  have hspan : jsonSpan (pre ++ ('{' :: (mid ++ ['}'])) ++ post) =
      some ('{' :: (mid ++ ['}'])) := by
    rw [List.append_assoc, jsonSpan_some _ _ _ hf hl (by omega), List.drop_left]
    have harith : pre.length + (mid.length + 1) - pre.length + 1 =
        ('{' :: (mid ++ ['}'])).length := by
      simp
    rw [harith, List.take_left]
  exact ⟨hspan, fun loads st cand hload =>
    autoExtract_ok_of_parse _ _ loads st cand hspan hload⟩

/-- Witness for C4: in the reply `x \x7ba\x7d y` the selected span is
exactly `\x7ba\x7d`, and with a parser that maps it to the empty
dictionary, that dictionary is stored and success reported. -/
theorem greedy_span_selects_first_to_last_brace_witness :
    jsonSpan (preW ++ ('{' :: (midW ++ ['}'])) ++ postW) =
      some ('{' :: (midW ++ ['}'])) ∧
    autoExtract (.ok (preW ++ ('{' :: (midW ++ ['}'])) ++ postW)) loadsK stPrior =
      ({ stPrior with extracted_data := some candEmpty }, .success) := by
  have h := greedy_span_selects_first_to_last_brace preW midW postW
    (by decide) (by decide)
  exact ⟨h.1, h.2 loadsK stPrior candEmpty rfl⟩

/-- C5: a reply in which the greedy span search finds no match (for
example one with no opening brace) makes the Auto-Extract handler
report the could-not-parse error, produce no record, and leave the
whole session — in particular any prior extracted candidate —
unchanged, whatever `json.loads` would have done. -/
theorem no_span_reports_error_and_preserves_state (st : Session)
    (loads : List Char → Except String Candidate) (reply : List Char)
    (h : jsonSpan reply = none) :
    autoExtract (.ok reply) loads st = (st, .errorNoParse) := by
  simp [autoExtract, h]

/-- Witness for C5: the braceless reply `no json here` yields the
parse error and leaves a session holding a prior candidate as it was. -/
theorem no_span_reports_error_and_preserves_state_witness :
    autoExtract (.ok replyNoJson) loadsK stPrior = (stPrior, .errorNoParse) :=
  no_span_reports_error_and_preserves_state stPrior loadsK replyNoJson (by decide)

/-- C10: extraction is all-or-nothing in every failure mode: whenever
the reported outcome is not success — the chat call raised, no span was
found, or `json.loads` raised on the span — the entire session
(OCR text and prior candidate included) is exactly as before the
attempt; on success the stored candidate is the parse result of the
selected span and the other session fields are untouched. -/
theorem extract_all_or_nothing (r : Except String (List Char))
    (loads : List Char → Except String Candidate) (st : Session) :
    ((autoExtract r loads st).2 ≠ .success → (autoExtract r loads st).1 = st) ∧
    ((autoExtract r loads st).2 = .success →
      ∃ reply span cand, r = .ok reply ∧ jsonSpan reply = some span ∧
        loads span = .ok cand ∧
        (autoExtract r loads st).1 = { st with extracted_data := some cand }) ∧
    (autoExtract r loads st).1.ocr_result = st.ocr_result ∧
    (autoExtract r loads st).1.pdf_processed = st.pdf_processed := by
  rcases r with e | reply
  · simp [autoExtract]
  · rcases hs : jsonSpan reply with _ | span
    · simp [autoExtract, hs]
    · rcases hl : loads span with e | cand
      · simp [autoExtract, hs, hl]
      · refine ⟨fun hne => absurd ?_ hne, fun _ => ⟨reply, span, cand, rfl, hs, hl, ?_⟩, ?_, ?_⟩ <;>
          simp [autoExtract, hs, hl]

/-- Witness for C10: a raised transport error leaves the session with
its prior candidate and OCR text untouched. -/
theorem extract_all_or_nothing_witness :
    (autoExtract (.error "service unavailable") loadsK stPrior).1 = stPrior :=
  (extract_all_or_nothing (.error "service unavailable") loadsK stPrior).1
    (by decide)

/-! ## Helper lemmas about the validation chain -/

/-- The Python `abs` model agrees with the mathematical absolute value. -/
theorem pyAbs_eq_abs (q : ℚ) : pyAbs q = |q| := by
  unfold pyAbs
  rcases le_or_lt 0 q with h | h
  · rw [if_neg (not_lt.mpr h), abs_of_nonneg h]
  · rw [if_pos h, abs_of_neg h]

/-- Branch equation: missing required fields. -/
theorem createInvoice_req_fail (c : SubmitCtx) (h : requiredOk c = false) :
    createInvoice c = .error msgRequired := by
  simp [createInvoice, h]

/-- Branch equation: non-positive invoice amount. -/
theorem createInvoice_amount_fail (c : SubmitCtx) (h1 : requiredOk c = true)
    (h2 : c.invoice_amount ≤ 0) : createInvoice c = .error msgAmount := by
  simp [createInvoice, h1, h2]

/-- Branch equation: line sum outside the tolerance. -/
theorem createInvoice_sum_fail (c : SubmitCtx) (h1 : requiredOk c = true)
    (h2 : ¬ c.invoice_amount ≤ 0)
    (h3 : ¬ pyAbs (lineSum c - c.invoice_amount) ≤ sumTol) :
    createInvoice c = .error msgSum := by
  simp [createInvoice, h1, h2, h3]

/-- Branch equation: a line with an empty distribution combination. -/
theorem createInvoice_dist_fail (c : SubmitCtx) (h1 : requiredOk c = true)
    (h2 : ¬ c.invoice_amount ≤ 0)
    (h3 : pyAbs (lineSum c - c.invoice_amount) ≤ sumTol)
    (h4 : c.lines.all (fun l => l.dist_comb ≠ "") = false) :
    createInvoice c = .error msgDist := by
  simp [createInvoice, h1, h2, h3]
  simpa using h4

/-- Branch equation: all four rules pass and the payload is built. -/
theorem createInvoice_ok (c : SubmitCtx) (h1 : requiredOk c = true)
    (h2 : ¬ c.invoice_amount ≤ 0)
    (h3 : pyAbs (lineSum c - c.invoice_amount) ≤ sumTol)
    (h4 : c.lines.all (fun l => l.dist_comb ≠ "") = true) :
    createInvoice c = .ok (buildPayload c) := by
  simp [createInvoice, h1, h2, h3]
  simpa using h4

/-- C1: at submission the four validation rules run in the fixed order
required-fields, positive amount, line-sum tolerance, non-empty
distribution combinations; the first failing rule yields exactly its
own error message and, since validation failure short-circuits the
handler, no payload is constructed and no HTTP request is issued
(the request slot of `submitClick` is `none`); only when all four pass
is the payload built and the request issued with it. -/
theorem validation_order_first_failure_halts (c : SubmitCtx)
    (http : InvoicePayload → HttpResult) :
    (requiredOk c = false →
      createInvoice c = .error msgRequired ∧
      submitClick http c = ([.errorText msgRequired], none)) ∧
    (requiredOk c = true → c.invoice_amount ≤ 0 →
      createInvoice c = .error msgAmount ∧
      submitClick http c = ([.errorText msgAmount], none)) ∧
    (requiredOk c = true → ¬ c.invoice_amount ≤ 0 →
      ¬ pyAbs (lineSum c - c.invoice_amount) ≤ sumTol →
      createInvoice c = .error msgSum ∧
      submitClick http c = ([.errorText msgSum], none)) ∧
    (requiredOk c = true → ¬ c.invoice_amount ≤ 0 →
      pyAbs (lineSum c - c.invoice_amount) ≤ sumTol →
      c.lines.all (fun l => l.dist_comb ≠ "") = false →
      createInvoice c = .error msgDist ∧
      submitClick http c = ([.errorText msgDist], none)) ∧
    (requiredOk c = true → ¬ c.invoice_amount ≤ 0 →
      pyAbs (lineSum c - c.invoice_amount) ≤ sumTol →
      c.lines.all (fun l => l.dist_comb ≠ "") = true →
      createInvoice c = .ok (buildPayload c) ∧
      submitClick http c =
        (reportResponse (http (buildPayload c)), some (buildPayload c))) := by
  refine ⟨fun h => ?_, fun h1 h2 => ?_, fun h1 h2 h3 => ?_,
    fun h1 h2 h3 h4 => ?_, fun h1 h2 h3 h4 => ?_⟩
  · have he := createInvoice_req_fail c h
    exact ⟨he, by simp [submitClick, he]⟩
  · have he := createInvoice_amount_fail c h1 h2
    exact ⟨he, by simp [submitClick, he]⟩
  · have he := createInvoice_sum_fail c h1 h2 h3
    exact ⟨he, by simp [submitClick, he]⟩
  · have he := createInvoice_dist_fail c h1 h2 h3 h4
    exact ⟨he, by simp [submitClick, he]⟩
  · have he := createInvoice_ok c h1 h2 h3 h4
    exact ⟨he, by simp [submitClick, he]⟩

/-- Witness for C1: clearing the supplier name makes the handler stop
with the required-fields message and issue no request, whatever the
network would have answered. -/
theorem validation_order_first_failure_halts_witness :
    createInvoice ctxMissing = Except.error msgRequired ∧
    submitClick httpDown ctxMissing = ([.errorText msgRequired], none) :=
  (validation_order_first_failure_halts ctxMissing httpDown).1 (by decide)

/-- C2: under rules 1 and 2, rule 3 fails exactly when the absolute
difference between the line-amount sum and the invoice amount exceeds
1e-6 (so it passes exactly when the difference is within tolerance). -/
theorem line_sum_tolerance_iff (c : SubmitCtx) (h1 : requiredOk c = true)
    (h2 : 0 < c.invoice_amount) :
    createInvoice c = .error msgSum ↔
      ¬ pyAbs (lineSum c - c.invoice_amount) ≤ sumTol := by
  constructor
  · intro h hc
    cases hall : c.lines.all (fun l => l.dist_comb ≠ "") with
    | false =>
      rw [createInvoice_dist_fail c h1 (not_le.mpr h2) hc hall] at h
      have hne : msgDist ≠ msgSum := by decide
      exact hne (Except.error.inj h)
    | true =>
      rw [createInvoice_ok c h1 (not_le.mpr h2) hc hall] at h
      exact Except.noConfusion h
  · exact createInvoice_sum_fail c h1 (not_le.mpr h2)

/-- Witness for C2: with lines of 30 and 70.0000001, an invoice amount
of 100 passes rule 3 (difference 1e-7) while 99 fails it (difference
1.0000001). -/
theorem line_sum_tolerance_iff_witness :
    createInvoice ctx100 ≠ Except.error msgSum ∧
    createInvoice ctx99 = Except.error msgSum := by
  constructor
  · intro h
    exact (line_sum_tolerance_iff ctx100 (by decide) (by decide)).mp h
      (by norm_num [lineSum, pyAbs, sumTol, ctx100])
  · exact (line_sum_tolerance_iff ctx99 (by decide) (by decide)).mpr
      (by norm_num [lineSum, pyAbs, sumTol, ctx99, ctx100])

/-- C3: every payload that validation lets through lists its lines in
the form's on-screen order: the line at position `i` (0-based) carries
`LineNumber = i + 1`, the amount and distribution combination of the
form line at the same position, and an `AccountingDate` equal to the
single header invoice date rendered `YYYY-MM-DD` — there is no per-line
date. -/
theorem payload_preserves_line_order (c : SubmitCtx) (p : InvoicePayload)
    (h : createInvoice c = .ok p) :
    p.invoiceLines.length = c.lines.length ∧
    ∀ (i : ℕ) (hi : i < c.lines.length) (hp : i < p.invoiceLines.length),
      (p.invoiceLines.get ⟨i, hp⟩).LineNumber = i + 1 ∧
      (p.invoiceLines.get ⟨i, hp⟩).LineAmount = (c.lines.get ⟨i, hi⟩).amount ∧
      (p.invoiceLines.get ⟨i, hp⟩).DistributionCombination =
        (c.lines.get ⟨i, hi⟩).dist_comb ∧
      (p.invoiceLines.get ⟨i, hp⟩).AccountingDate = strftimeYMD c.invoice_date := by
  have hpb : p = buildPayload c := by
    unfold createInvoice at h
    split_ifs at h
    all_goals simp_all
  subst hpb
  refine ⟨by simp [buildPayload], fun i hi hp => ?_⟩
  exact ⟨by simp [buildPayload, List.get_mapIdx],
    by simp [buildPayload, List.get_mapIdx],
    by simp [buildPayload, List.get_mapIdx],
    by simp [buildPayload, List.get_mapIdx]⟩

/-- Witness for C3: the three-line form [10, 20, 70] yields a payload
whose second line carries `LineNumber = 2` and the header date. -/
theorem payload_preserves_line_order_witness :
    createInvoice ctx3 = Except.ok pay3 ∧
    (pay3.invoiceLines.get ⟨1, by decide⟩).LineNumber = 2 ∧
    (pay3.invoiceLines.get ⟨1, by decide⟩).AccountingDate =
      strftimeYMD ctx3.invoice_date := by
  have h : createInvoice ctx3 = Except.ok pay3 :=
    createInvoice_ok ctx3 (by decide) (by norm_num [ctx3, ctx100])
      (by norm_num [lineSum, pyAbs, sumTol, ctx3, ctx100]) (by decide)
  have h2 := (payload_preserves_line_order ctx3 pay3 h).2 1 (by decide) (by decide)
  exact ⟨h, h2.1, h2.2.2.2⟩

/-! ## Form-field initialisation claims -/

/-- Counterexample to C6: a candidate whose `invoice_amount` is the
string `"abc"` does not initialise the amount field to 0 — the
uncaught `float("abc")` call raises (modelled `none`), aborting the
script run with a visible exception instead of a silent fallback. -/
theorem numeric_coercion_failure_raises :
    initInvoiceAmount cAbc = none ∧ initInvoiceAmount cAbc ≠ some 0 := by
  decide

/-- C6 amended: the 0 fallback applies only to an absent
`invoice_amount` key; a present value is passed to `float`, whose
result (or failure, i.e. a raised exception) is surfaced unshielded.
Likewise a line beyond the extracted list defaults to 0, while an
in-range line's `amount` value goes straight to `float` (a missing
`amount` key raising `KeyError`). -/
theorem numeric_defaults_only_for_absent_values (c : Candidate) :
    (c.invoice_amount = none → initInvoiceAmount c = some 0) ∧
    (∀ v, c.invoice_amount = some v → initInvoiceAmount c = pyFloat v) ∧
    (∀ (ls : List LineItem) (i : ℕ), ls.length ≤ i → initLineAmount ls i = some 0) ∧
    (∀ (ls : List LineItem) (i : ℕ) (h : i < ls.length) (v : JVal),
      (ls.get ⟨i, h⟩).amount = some v → initLineAmount ls i = pyFloat v) := by
  refine ⟨fun h => ?_, fun v hv => ?_, fun ls i h => ?_, fun ls i h v hv => ?_⟩
  · simp [initInvoiceAmount, h, pyFloat]
  · simp [initInvoiceAmount, hv]
  · simp [initLineAmount, Nat.not_lt.mpr h]
  · simp only [List.get_eq_getElem] at hv
    simp [initLineAmount, h, hv]

/-- Witness for C6 amended: with the key absent the amount defaults to
0; with the non-numeric string `"abc"` present the coercion raises. -/
theorem numeric_defaults_only_for_absent_values_witness :
    initInvoiceAmount candEmpty = some 0 ∧ initInvoiceAmount cAbc = none := by
  constructor
  · exact (numeric_defaults_only_for_absent_values candEmpty).1 rfl
  · rw [(numeric_defaults_only_for_absent_values cAbc).2.1
      (.jstr ('a' :: 'b' :: 'c' :: [])) rfl]
    decide

/-- C7: the invoice date field initialises to the parsed candidate
date when `invoice_date` is a string parsing as `YYYY-MM-DD`, and
silently falls back to the current calendar date when the key is
absent or the value fails to parse — the fallback raises no error
because the whole statement is inside `try/except`. -/
theorem date_silent_fallback_to_today (c : Candidate) (today : Date) :
    (c.invoice_date = none → initInvoiceDate c today = today) ∧
    (∀ s, c.invoice_date = some (.jstr s) → parseYMD s = none →
      initInvoiceDate c today = today) ∧
    (∀ s d, c.invoice_date = some (.jstr s) → parseYMD s = some d →
      initInvoiceDate c today = d) := by
  refine ⟨fun h => ?_, fun s hs hp => ?_, fun s d hs hp => ?_⟩
  · simp [initInvoiceDate, h, truthy]
  · rcases s with _ | ⟨a, t⟩
    · simp [initInvoiceDate, hs, truthy]
    · simp [initInvoiceDate, hs, truthy, hp]
  · have hne : s ≠ [] := by
      intro he
      rw [he] at hp
      exact Option.noConfusion ((rfl : parseYMD [] = none) ▸ hp)
    simp [initInvoiceDate, hs, truthy, hne, hp]

/-- Witness for C7: the malformed `"13/02/2024"` falls back to the
current date, and the well-formed `"2024-02-13"` initialises to that
date. -/
theorem date_silent_fallback_to_today_witness :
    initInvoiceDate cBadDate ⟨2030, 5, 6⟩ = ⟨2030, 5, 6⟩ ∧
    initInvoiceDate cGoodDate ⟨2030, 5, 6⟩ = ⟨2024, 2, 13⟩ := by
  constructor
  · exact (date_silent_fallback_to_today cBadDate ⟨2030, 5, 6⟩).2.1
      "13/02/2024".toList rfl (by decide)
  · exact (date_silent_fallback_to_today cGoodDate ⟨2030, 5, 6⟩).2.2
      "2024-02-13".toList ⟨2024, 2, 13⟩ rfl (by decide)

/-- Counterexample to C8: with eleven extracted line items the line
count is not clamped to 10 — the widget receives the out-of-range
default 11 and raises (modelled `none`), so the default is in
particular not `some 10`. -/
theorem eleven_line_items_not_clamped :
    defaultNumLines c11 5 = none ∧ defaultNumLines c11 5 ≠ some 10 := by
  decide

/-- C8 amended: the default row count equals the number of extracted
line items when that number lies in [1, 10]; an empty or absent
`line_items` seeds one synthetic line (description "Service", amount
equal to the current header invoice amount) giving default 1; more
than 10 items put the widget default out of its [1, 10] range, which
raises an error rather than clamping. -/
theorem num_lines_default_rule (c : Candidate) (amt : ℚ) :
    (c.line_items.getD [] = [] →
      seededLines c amt = [⟨some (.jstr serviceChars), some (.jnum amt)⟩] ∧
      defaultNumLines c amt = some 1) ∧
    (∀ ls, c.line_items = some ls → ls ≠ [] → ls.length ≤ 10 →
      defaultNumLines c amt = some ls.length) ∧
    (∀ ls, c.line_items = some ls → 10 < ls.length →
      defaultNumLines c amt = none) := by
  refine ⟨fun h => ?_, fun ls hls hne hle => ?_, fun ls hls hgt => ?_⟩
  · constructor
    · simp [seededLines, h]
    · simp [defaultNumLines, seededLines, h, numberInputDefault]
  · have hpos : 0 < ls.length := List.length_pos.mpr hne
    simp [defaultNumLines, seededLines, hls, hne, numberInputDefault]
    omega
  · have hne : ls ≠ [] := by
      intro he
      rw [he] at hgt
      simp at hgt
    simp [defaultNumLines, seededLines, hls, hne, numberInputDefault]
    omega

/-- Witness for C8 amended: an empty candidate seeds the synthetic
Service line and defaults to one row; eleven items raise. -/
theorem num_lines_default_rule_witness :
    defaultNumLines candEmpty 7 = some 1 ∧
    seededLines candEmpty 7 = [⟨some (.jstr serviceChars), some (.jnum 7)⟩] ∧
    defaultNumLines c11 5 = none := by
  have h1 := (num_lines_default_rule candEmpty 7).1 rfl
  have h3 := (num_lines_default_rule c11 5).2.2
    (List.replicate 11 ⟨none, some (.jnum 1)⟩) rfl (by decide)
  exact ⟨h1.2, h1.1, h3⟩

/-! ## ERP response mapping claims -/

/-- Counterexample to C9: an HTTP 200 response whose body is not valid
JSON is not reported as success-with-body — the success banner renders,
then `response.json()` raises `JSONDecodeError`, which as a
`RequestException` subclass is caught by the network-error handler at
line 344; the decode error's message is reported as a network error
and the body is never surfaced. -/
theorem status_200_nonjson_body_not_success_with_body :
    reportResponse (.response 200 "OK"
        (.error "Expecting value: line 1 column 1 (char 0)")) =
      [.successCreated,
        .networkError "Expecting value: line 1 column 1 (char 0)"] ∧
    UiEvent.jsonOut "OK" ∉ reportResponse (.response 200 "OK"
        (.error "Expecting value: line 1 column 1 (char 0)")) := by
  decide

/-- C9 amended: HTTP 200/201 with a JSON-parseable body is reported as
success with the parsed body; HTTP 200/201 with an unparseable body
shows the success banner and then a network-error message carrying the
`JSONDecodeError` text (in requests ≥ 2.27 that exception subclasses
`RequestException`, so the line-344 handler catches it), with the body
never surfaced; every other status is reported as failure carrying the
status code and the raw body verbatim; a transport-level failure is
surfaced as a network-error message distinct from the HTTP-status
failure shape. -/
theorem response_status_mapping (status : Nat) (text body err msg : String)
    (jb : Except String String) :
    (status = 200 ∨ status = 201 →
      reportResponse (.response status text (.ok body)) =
        [.successCreated, .jsonOut body]) ∧
    (status = 200 ∨ status = 201 →
      reportResponse (.response status text (.error err)) =
        [.successCreated, .networkError err]) ∧
    (status ≠ 200 → status ≠ 201 →
      reportResponse (.response status text jb) =
        [.errorStatus status, .errorResponseBody text]) ∧
    reportResponse (.netFail msg) = [.networkError msg] := by
  refine ⟨fun h => ?_, fun h => ?_, fun h1 h2 => ?_, ?_⟩
  · simp [reportResponse, h]
  · simp [reportResponse, h]
  · simp [reportResponse, h1, h2]
  · simp [reportResponse]

/-- Witness for C9 amended: HTTP 201 with JSON body `created` reports
success with that body; HTTP 400 with body `\x7b"error":"x"\x7d`
reports failure carrying 400 and that exact body; a timeout surfaces
as a network error. -/
theorem response_status_mapping_witness :
    reportResponse (.response 201 "" (.ok "created")) =
      [.successCreated, .jsonOut "created"] ∧
    reportResponse (.response 400 bodyErrX (.error "no json")) =
      [.errorStatus 400, .errorResponseBody bodyErrX] ∧
    reportResponse (.netFail "timed out") = [.networkError "timed out"] := by
  refine ⟨?_, ?_, ?_⟩
  · exact (response_status_mapping 201 "" "created" "" "" (.ok "")).1 (Or.inr rfl)
  · exact (response_status_mapping 400 bodyErrX "" "" "" (.error "no json")).2.2.1
      (by decide) (by decide)
  · exact (response_status_mapping 0 "" "" "" "timed out" (.ok "")).2.2.2

end Ocr
